import Mathlib

/-!
Verification development for the tool-metrics hook pipeline of the
`ai-mesh` repository (`hooks/tool-metrics.js`).

The JavaScript code is shallowly embedded:

* JS strings are Lean `String`s; `String.prototype.split` with a
  one-character separator and `String.prototype.trim` are modelled by
  explicit recursions over the character list (`jsSplitAux`, `jsTrim`).
* JS objects with a statically known key set (tool input, event records,
  the indicators document) are Lean structures whose optional keys are
  `Option` fields; `'k' in obj` is `Option.isSome`, and the JS
  `x || default` idiom (which replaces any falsy value, in particular the
  empty string and the number 0) is modelled by the `jsStrOr` /
  `jsNumOrNull` helpers.
* JS numbers are `ℚ` (for the success-rate percentage, where division
  occurs) and `ℤ` (for counters).  IEEE-754 rounding is not modelled;
  every numeric value reached by a concrete theorem below is exactly
  representable in double precision, and `Math.round` is `round : ℚ → ℤ`
  (both round halves up).
* Fallible I/O (the remote API, file reads/writes) is modelled by
  `Except`/`Option`-valued oracle parameters collected in environment
  structures; a thrown-and-caught JS exception is an `Except.error`
  inspected at the catch site.
-/

namespace ToolMetrics

/-- JS `String.prototype.trim`: drop whitespace from both ends. -/
def jsTrim (s : String) : String :=
  ⟨((s.data.dropWhile Char.isWhitespace).reverse.dropWhile Char.isWhitespace).reverse⟩

/-- Splitting a character list at every occurrence of `sep`, keeping empty
segments — the semantics of JS `String.prototype.split` with a
single-character separator (`"".split(sep)` is `[""]`). -/
def jsSplitAux (sep : Char) : List Char → List (List Char)
  | [] => [[]]
  | c :: cs =>
    if c = sep then [] :: jsSplitAux sep cs
    else
      match jsSplitAux sep cs with
      | [] => [[c]]
      | s :: ss => (c :: s) :: ss

/-- JS `s.split(sep)` for a one-character separator. -/
def jsSplit (s : String) (sep : Char) : List String :=
  (jsSplitAux sep s.data).map (fun l => ⟨l⟩)

/-- JS `v || d` for an optional string `v`: an absent value and the empty
string (the only falsy strings) are replaced by the default. -/
def jsStrOr (v : Option String) (d : String) : String :=
  match v with
  | some s => if s = "" then d else s
  | none => d

/-- JS `v || null` for an optional number `v`: an absent value and `0`
(the falsy number) give `null`. -/
def jsNumOrNull (v : Option Int) : Option Int :=
  match v with
  | some n => if n = 0 then none else some n
  | none => none

/-- Suffix of a character list starting at its last `'.'`, if any —
helper for `jsExtname`. -/
def lastDotSuffix : List Char → Option (List Char)
  | [] => none
  | c :: cs =>
    match lastDotSuffix cs with
    | some s => some s
    | none => if c = '.' then some (c :: cs) else none

/-- Node's `path.extname` (POSIX): the part of the basename from its last
`'.'` on, or `""` when the basename has no dot or only a leading dot. -/
def jsExtname (p : String) : String :=
  let base := (jsSplitAux '/' p.data).getLastD []
  match base with
  | [] => ""
  | _ :: rest =>
    match lastDotSuffix rest with
    | some s => ⟨s⟩
    | none => ""

/-- The tool-input object: the keys the pipeline ever reads, each
optional, plus the names of any further keys (values unread). -/
structure ToolInput where
  file_path : Option String := none
  old_string : Option String := none
  new_string : Option String := none
  content : Option String := none
  command : Option String := none
  limit : Option Int := none
  replace_all : Option Bool := none
  run_in_background : Option Bool := none
  timeout : Option Int := none
  subagent_type : Option String := none
  description : Option String := none
  extraKeys : List String := []
deriving DecidableEq

/-- JS `Object.keys(toolInput)`: the names of the present keys. -/
def toolInputKeys (t : ToolInput) : List String :=
  (if t.file_path.isSome then ["file_path"] else []) ++
  (if t.old_string.isSome then ["old_string"] else []) ++
  (if t.new_string.isSome then ["new_string"] else []) ++
  (if t.content.isSome then ["content"] else []) ++
  (if t.command.isSome then ["command"] else []) ++
  (if t.limit.isSome then ["limit"] else []) ++
  (if t.replace_all.isSome then ["replace_all"] else []) ++
  (if t.run_in_background.isSome then ["run_in_background"] else []) ++
  (if t.timeout.isSome then ["timeout"] else []) ++
  (if t.subagent_type.isSome then ["subagent_type"] else []) ++
  (if t.description.isSome then ["description"] else []) ++
  t.extraKeys

/-- The raw invocation record handed to the hook (`toolData`). -/
structure ToolData where
  toolName : Option String := none
  toolInput : Option ToolInput := none
  error : Option String := none
  executionTime : Option ℚ := none
deriving DecidableEq

/-- The diagnostic environment descriptor (`process.version` etc.),
carried but not semantically used downstream. -/
structure EnvDescriptor where
  nodeVersion : String := ""
  platform : String := ""
  architecture : String := ""
deriving DecidableEq

/-- The hook context built by `createPostToolUseContext`. -/
structure HookContext where
  tool_name : String := "unknown"
  tool_input : ToolInput := {}
  error : Option String := none
  timestamp : String := ""
  environment : EnvDescriptor := {}
deriving DecidableEq

/-- `createPostToolUseContext(toolData)`: normalize the raw invocation.
`now` is the `formatISO(new Date())` wall-clock string. -/
def createPostToolUseContext (envInfo : EnvDescriptor) (now : String)
    (toolData : ToolData) : HookContext :=
  { tool_name := jsStrOr toolData.toolName "unknown"
    tool_input := toolData.toolInput.getD {}
    error := toolData.error
    timestamp := now
    environment := envInfo }

/-- `getCurrentSessionId()`.  `envVar` is `process.env.CLAUDE_SESSION_ID`
(`none` = unset); `file` is the state of `.current-session-id`
(`none` = absent, `some (Except.error ())` = a read that throws — the
code catches it and leaves the id undefined, `some (Except.ok c)` = its
content `c`). -/
def getCurrentSessionId (envVar : Option String)
    (file : Option (Except Unit String)) : String :=
  let sessionId := envVar.getD ""
  let sessionId :=
    if sessionId = "" then
      match file with
      | some (Except.ok content) => jsTrim content
      | some (Except.error _) => ""
      | none => ""
    else sessionId
  if sessionId = "" then "default-session" else sessionId

/-- The value of the `lines_requested` field: `toolInput.limit || 'all'`. -/
inductive LinesRequested
  | num (n : Int)
  | all
deriving DecidableEq

/-- The tool-specific metric fields (`extractToolSpecificMetrics` output):
the union of the per-tool branches, absent keys `none`.  The JS
`Object.assign` that merges this object into the event record never
collides with the base keys, so the merged record is modelled as the base
record carrying this structure. -/
structure SpecificMetrics where
  file_path : Option String := none
  file_size_bytes : Option Int := none
  lines_requested : Option LinesRequested := none
  lines_added : Option Int := none
  lines_removed : Option Int := none
  net_lines : Option Int := none
  replace_all : Option Bool := none
  content_length : Option Int := none
  lines_written : Option Int := none
  file_type : Option String := none
  command : Option String := none
  command_type : Option String := none
  background : Option Bool := none
  timeout : Option (Option Int) := none
  subagent_type : Option String := none
  task_description : Option String := none
  delegation : Option Bool := none
  generic_tool : Option Bool := none
  input_keys : Option (List String) := none
deriving DecidableEq

/-- `extractToolSpecificMetrics(context)`.  `fsSize path` is the oracle
for `fs.existsSync`/`fs.statSync`: `some n` = the file exists with size
`n`, `none` = it does not exist or `stat` throws (the code catches the
error); both give `file_size_bytes = 0` when absent. -/
def extractToolSpecificMetrics (fsSize : String → Option Int)
    (context : HookContext) : SpecificMetrics :=
  let toolInput := context.tool_input
  match context.tool_name with
  | "Read" =>
    let filePath := jsStrOr toolInput.file_path ""
    let fileSize : Int := match fsSize filePath with | some n => n | none => 0
    { file_path := some filePath
      file_size_bytes := some fileSize
      lines_requested := some (match jsNumOrNull toolInput.limit with
        | some n => LinesRequested.num n
        | none => LinesRequested.all) }
  | "Edit" =>
    let editFilePath := jsStrOr toolInput.file_path ""
    let oldString := jsStrOr toolInput.old_string ""
    let newString := jsStrOr toolInput.new_string ""
    let linesRemoved : Int := if oldString ≠ "" then (jsSplit oldString '\n').length else 0
    let linesAdded : Int := if newString ≠ "" then (jsSplit newString '\n').length else 0
    { file_path := some editFilePath
      lines_added := some linesAdded
      lines_removed := some linesRemoved
      net_lines := some (linesAdded - linesRemoved)
      replace_all := some (toolInput.replace_all.getD false) }
  | "Write" =>
    let writeFilePath := jsStrOr toolInput.file_path ""
    let content := jsStrOr toolInput.content ""
    { file_path := some writeFilePath
      content_length := some (content.length : Int)
      lines_written := some (if content ≠ "" then ((jsSplit content '\n').length : Int) else 0)
      file_type := some (if writeFilePath ≠ "" then jsExtname writeFilePath else "unknown") }
  | "Bash" =>
    let command := jsStrOr toolInput.command ""
    { command := some command
      command_type := some (if command ≠ "" then (jsSplit command ' ').headD "" else "unknown")
      background := some (toolInput.run_in_background.getD false)
      timeout := some (jsNumOrNull toolInput.timeout) }
  | "Task" =>
    let subagentType := jsStrOr toolInput.subagent_type "unknown"
    let description := jsStrOr toolInput.description ""
    { subagent_type := some subagentType
      task_description := some description
      delegation := some true }
  | _ =>
    { generic_tool := some true
      input_keys := some (toolInputKeys toolInput) }

/-- An event record passed to the metrics sink.  The base keys present on
every record are plain fields; keys present only on the primary
`tool_execution` record (`tool_name`, `user`, `session_id`), only on the
secondary `agent_invocation` record (`agent_name`, `task_description`),
or only on failure (`error`, `error_message`) are `Option` fields; the
merged tool-specific keys are the `metrics` component. -/
structure EventRecord where
  event_type : String
  timestamp : String
  tool_name : Option String := none
  success : Bool
  execution_time_ms : Int
  user : Option String := none
  session_id : Option String := none
  agent_name : Option String := none
  task_description : Option String := none
  metrics : SpecificMetrics := {}
  error : Option Bool := none
  error_message : Option String := none
deriving DecidableEq

/-- The sink outcome object (`{success, method, message?, error?}`). -/
structure Outcome where
  success : Bool
  method : String
  message : Option String := none
  error : Option String := none
deriving DecidableEq

instance {ε α : Type} [DecidableEq ε] [DecidableEq α] : DecidableEq (Except ε α) := fun a b =>
  match a, b with
  | Except.ok x, Except.ok y =>
    if h : x = y then Decidable.isTrue (by rw [h]) else Decidable.isFalse (by simp [h])
  | Except.ok _, Except.error _ => Decidable.isFalse (by simp)
  | Except.error _, Except.ok _ => Decidable.isFalse (by simp)
  | Except.error x, Except.error y =>
    if h : x = y then Decidable.isTrue (by rw [h]) else Decidable.isFalse (by simp [h])

/-- Oracles for one `logMetrics` call: whether `new MetricsApiClient()`
throws, whether the remote submission throws/rejects, and whether the
local disk writes (`ensureDir`/`appendFile`) throw; `Except.error e`
carries the JS error message. -/
structure SinkEnv where
  clientInit : Except String Unit := Except.ok ()
  remote : Except String Unit := Except.ok ()
  localWrite : Except String Unit := Except.ok ()
deriving DecidableEq

/-- Modelled from the spec: `sendToBackendWithFallback` is imported from
`hooks/metrics-api-client.js`, which is not among the sources; per §4.4
it attempts the remote submission, degrades to the local fallback on any
primary-path failure, reports `method` as `"remote"`/`"local_fallback"`
with `success` reflecting whether either path completed without raising,
and captures the local-fallback error when both raise, never propagating
an exception. -/
def sendToBackendWithFallback (remote localWrite : Except String Unit) : Outcome :=
  match remote with
  | Except.ok _ => { success := true, method := "remote" }
  | Except.error _ =>
    match localWrite with
    | Except.ok _ => { success := true, method := "local_fallback" }
    | Except.error e => { success := false, method := "local_fallback", error := some e }

/-- `logMetrics(data)`: remote submission with local fallback, plus an
outer catch that re-runs the local fallback when the API client itself
fails.  The outcome does not depend on `data` (the record only determines
the bytes written), but the parameter is kept to mirror the signature. -/
def logMetrics (env : SinkEnv) (_data : EventRecord) : Outcome :=
  match env.clientInit with
  | Except.ok _ => sendToBackendWithFallback env.remote env.localWrite
  | Except.error e =>
    match env.localWrite with
    | Except.ok _ =>
      { success := true, method := "local_fallback"
        message := some "API client failed, data stored locally"
        error := some e }
    | Except.error fe =>
      { success := false, method := "local_fallback"
        message := some "Both API and local storage failed"
        error := some fe }

/-- The productivity-indicators document. -/
structure Indicators where
  session_start : String
  commands_executed : Int
  tools_used : List (String × Int)
  files_modified : Int
  lines_changed : Int
  agents_invoked : List (String × Int)
  success_rate : ℚ
  last_activity : Option String
deriving DecidableEq

/-- The freshly initialized indicators document. -/
def initialIndicators (now : String) : Indicators :=
  { session_start := now
    commands_executed := 0
    tools_used := []
    files_modified := 0
    lines_changed := 0
    agents_invoked := []
    success_rate := 100
    last_activity := none }

/-- JS `obj[k] = (obj[k] || 0) + 1` on a string-keyed counter object,
modelled as an association list. -/
def bumpCount (m : List (String × Int)) (k : String) : List (String × Int) :=
  if (m.lookup k).isSome then
    m.map (fun p => if p.1 = k then (p.1, p.2 + 1) else p)
  else m ++ [(k, 1)]

/-- JS truthiness of an optional string (`if (metrics.subagent_type)`). -/
def jsTruthyStr (v : Option String) : Bool :=
  match v with
  | some s => s != ""
  | none => false

/-- Steps 2–7 of the indicator update (everything before the success-rate
recomputation), written field-wise: each field's formula is the effect of
the corresponding mutation block.  A record with `tool_name` absent would
be counted under the JS key `"undefined"`. -/
def applyCounters (ind : Indicators) (m : EventRecord) : Indicators :=
  let toolName := m.tool_name.getD "undefined"
  { session_start := ind.session_start
    commands_executed := ind.commands_executed + 1
    last_activity := some m.timestamp
    tools_used := bumpCount ind.tools_used toolName
    files_modified :=
      ind.files_modified +
        (if (toolName = "Edit" ∨ toolName = "Write") ∧ m.metrics.file_path.isSome
         then 1 else 0)
    lines_changed :=
      ind.lines_changed +
        (if m.metrics.net_lines.isSome then ((m.metrics.net_lines.getD 0).natAbs : Int)
         else if m.metrics.lines_written.isSome then m.metrics.lines_written.getD 0
         else 0)
    agents_invoked :=
      if jsTruthyStr m.metrics.subagent_type then
        bumpCount ind.agents_invoked (m.metrics.subagent_type.getD "")
      else ind.agents_invoked
    success_rate := ind.success_rate }

/-- Step 8 of the indicator update: the success-rate recomputation, using
the post-increment `commands_executed`. -/
def applyRate (ind : Indicators) (m : EventRecord) : Indicators :=
  if 0 < ind.commands_executed ∧ m.success = false then
    { ind with success_rate := max 0 (ind.success_rate - 1 / (ind.commands_executed : ℚ)) }
  else ind

/-- The read-modify-write body of `updateProductivityIndicators` on a
loaded indicators document (the surrounding load/persist I/O lives in
`mainHook`; its catch-all never alters the computed document). -/
def updateProductivityIndicators (ind : Indicators) (m : EventRecord) : Indicators :=
  applyRate (applyCounters ind m) m

/-- The environment of one orchestrated `main(toolData)` call: wall-clock
strings for the `formatISO(new Date())` calls, the consulted environment
variables, the session-id file state, the filesystem-size oracle, the
sink oracles for the (up to) two `logMetrics` calls, and the state of the
indicators document (`none` = absent, lazily initialized). -/
structure PipelineEnv where
  envInfo : EnvDescriptor := {}
  nowContext : String := ""
  nowEvent : String := ""
  nowIndicators : String := ""
  envUser : Option String := none
  envSessionId : Option String := none
  sessionFile : Option (Except Unit String) := none
  fsSize : String → Option Int := fun _ => none
  agentSink : SinkEnv := {}
  primarySink : SinkEnv := {}
  indicatorsFile : Option Indicators := none

/-- The hook execution report.  The measured wall-clock `executionTime`
and `memoryUsage` numbers are real-time observations and are not
modelled; the `metrics` summary component is flattened in. -/
structure ExecutionReport where
  success : Bool
  toolName : String
  successful : Bool
  metricsLogged : Bool
  apiMethod : String
  apiMessage : Option String
deriving DecidableEq

/-- The observable effect of one `main(toolData)` call: the event records
passed to the sink in order, the sink outcomes, the report, and the
indicators document after the update. -/
structure MainResult where
  events : List EventRecord
  outcomes : List Outcome
  report : ExecutionReport
  indicators : Indicators
deriving DecidableEq

/-- The base `metricsData` object of `main` before the tool-specific
merge. -/
def basicMetricsData (env : PipelineEnv) (toolData : ToolData)
    (context : HookContext) : EventRecord :=
  { event_type := "tool_execution"
    timestamp := env.nowEvent
    tool_name := some context.tool_name
    success := context.error.isNone
    execution_time_ms := round (toolData.executionTime.getD 0)
    user := some (jsStrOr env.envUser "unknown")
    session_id := some (getCurrentSessionId env.envSessionId env.sessionFile) }

/-- The primary `tool_execution` record as passed to the sink: the base
fields, the merged tool-specific metrics, and the error decoration when
the invocation carried an error. -/
def primaryEvent (env : PipelineEnv) (toolData : ToolData) : EventRecord :=
  let context := createPostToolUseContext env.envInfo env.nowContext toolData
  let base := basicMetricsData env toolData context
  let merged := { base with metrics := extractToolSpecificMetrics env.fsSize context }
  match context.error with
  | some e => { merged with error := some true, error_message := some e }
  | none => merged

/-- The secondary `agent_invocation` record built when the tool is
`Task`. -/
def agentEvent (env : PipelineEnv) (toolData : ToolData) : EventRecord :=
  let context := createPostToolUseContext env.envInfo env.nowContext toolData
  let toolSpecific := extractToolSpecificMetrics env.fsSize context
  { event_type := "agent_invocation"
    timestamp := env.nowEvent
    agent_name := toolSpecific.subagent_type
    task_description := toolSpecific.task_description
    success := context.error.isNone
    execution_time_ms := round (toolData.executionTime.getD 0) }

/-- `main(toolData)`: build the context, resolve the session, build the
primary record, additionally build and sink the secondary record when the
tool is `Task` (before the primary is sinked), sink the primary record,
update the indicators, and report.  The body of the embedding is total,
so the catch branch of `main` (reached only by an uncaught exception) is
never taken. -/
def mainHook (env : PipelineEnv) (toolData : ToolData) : MainResult :=
  let context := createPostToolUseContext env.envInfo env.nowContext toolData
  let primary := primaryEvent env toolData
  let agentPart : List EventRecord × List Outcome :=
    if context.tool_name = "Task" then
      let a := agentEvent env toolData
      ([a], [logMetrics env.agentSink a])
    else ([], [])
  let logResult := logMetrics env.primarySink primary
  let indicators0 := env.indicatorsFile.getD (initialIndicators env.nowIndicators)
  { events := agentPart.1 ++ [primary]
    outcomes := agentPart.2 ++ [logResult]
    report :=
      { success := true
        toolName := context.tool_name
        successful := context.error.isNone
        metricsLogged := logResult.success
        apiMethod := logResult.method
        apiMessage := logResult.message }
    indicators := updateProductivityIndicators indicators0 primary }

/-- The line count used by the Edit and Write extractors:
`s ? s.split('\n').length : 0`. -/
def countLines (s : String) : Nat :=
  if s = "" then 0 else (jsSplit s '\n').length

/-- All per-name counts of a counter object are non-negative. -/
def NonnegCounts (m : List (String × Int)) : Prop :=
  ∀ p ∈ m, 0 ≤ p.2

/-- The indicators-document invariant: every counter is non-negative. -/
def IndInvariant (i : Indicators) : Prop :=
  0 ≤ i.commands_executed ∧ 0 ≤ i.files_modified ∧ 0 ≤ i.lines_changed ∧
    0 ≤ i.success_rate ∧ NonnegCounts i.tools_used ∧ NonnegCounts i.agents_invoked

/-- Decidable check that a record carries the per-record fields the data
model lists for every event: tool name, user and session identifier
(event type, timestamp, success flag and execution time are mandatory
fields of the embedding and always present). -/
def hasDataModelFields (e : EventRecord) : Bool :=
  e.tool_name.isSome && e.user.isSome && e.session_id.isSome

/-- First whitespace-delimited token of a string: the first maximal run
of non-whitespace characters, `"unknown"` when the string is empty — the
reading of the claim (`command_type` = first *whitespace*-delimited
token). -/
def firstWhitespaceToken (s : String) : String :=
  if s = "" then "unknown"
  else ⟨(s.data.dropWhile Char.isWhitespace).takeWhile (fun c => !c.isWhitespace)⟩

/-- First space-delimited segment of a string: its prefix up to the first
space character (`command.split(' ')[0]`). -/
def firstSpaceSegment (s : String) : String :=
  ⟨s.data.takeWhile (fun c => c ≠ ' ')⟩

/-! ### Helper lemmas -/

theorem jsSplitAux_ne_nil (sep : Char) (l : List Char) : jsSplitAux sep l ≠ [] := by
  induction l with
  | nil => simp [jsSplitAux]
  | cons c cs ih =>
    simp only [jsSplitAux]
    split
    · simp
    · split
      · simp
      · simp

theorem jsSplitAux_length (sep : Char) (l : List Char) :
    (jsSplitAux sep l).length = l.count sep + 1 := by
  induction l with
  | nil => simp [jsSplitAux]
  | cons c cs ih =>
    by_cases h : c = sep
    · subst h
      simp [jsSplitAux, ih, List.count_cons]
    · simp only [jsSplitAux, if_neg h]
      rcases hs : jsSplitAux sep cs with _ | ⟨s, ss⟩
      · exact absurd hs (jsSplitAux_ne_nil sep cs)
      · rw [hs] at ih
        simp only [List.length_cons] at ih ⊢
        rw [List.count_cons]
        simp [h, ih]

theorem jsSplitAux_head (sep : Char) (l : List Char) :
    (jsSplitAux sep l).headD [] = l.takeWhile (fun c => c ≠ sep) := by
  induction l with
  | nil => simp [jsSplitAux]
  | cons c cs ih =>
    by_cases h : c = sep
    · subst h
      simp [jsSplitAux, List.takeWhile_cons]
    · simp only [jsSplitAux, if_neg h]
      rcases hs : jsSplitAux sep cs with _ | ⟨s, ss⟩
      · exact absurd hs (jsSplitAux_ne_nil sep cs)
      · rw [hs] at ih
        simp only [List.headD_cons] at ih
        simp [List.takeWhile_cons, h, ih]

theorem jsSplit_length (s : String) (sep : Char) :
    (jsSplit s sep).length = s.data.count sep + 1 := by
  simp [jsSplit, jsSplitAux_length]

theorem jsSplit_headD (s : String) (sep : Char) :
    (jsSplit s sep).headD "" = ⟨s.data.takeWhile (fun c => c ≠ sep)⟩ := by
  unfold jsSplit
  rw [← jsSplitAux_head]
  rcases h : jsSplitAux sep s.data with _ | ⟨a, l⟩
  · exact absurd h (jsSplitAux_ne_nil sep s.data)
  · simp

theorem applyCounters_commands (ind : Indicators) (m : EventRecord) :
    (applyCounters ind m).commands_executed = ind.commands_executed + 1 := rfl

theorem applyCounters_success_rate (ind : Indicators) (m : EventRecord) :
    (applyCounters ind m).success_rate = ind.success_rate := rfl

theorem applyRate_commands (ind : Indicators) (m : EventRecord) :
    (applyRate ind m).commands_executed = ind.commands_executed := by
  unfold applyRate
  split <;> rfl

theorem updateProductivityIndicators_commands (ind : Indicators) (m : EventRecord) :
    (updateProductivityIndicators ind m).commands_executed = ind.commands_executed + 1 := by
  unfold updateProductivityIndicators
  rw [applyRate_commands, applyCounters_commands]

theorem update_rate_of_fail (ind : Indicators) (m : EventRecord)
    (h : 0 ≤ ind.commands_executed) (hf : m.success = false) :
    (updateProductivityIndicators ind m).success_rate
      = max 0 (ind.success_rate - 1 / (((ind.commands_executed + 1 : Int)) : ℚ)) := by
  unfold updateProductivityIndicators applyRate
  have hc : (0 : Int) < (applyCounters ind m).commands_executed := by
    rw [applyCounters_commands]; omega
  rw [if_pos ⟨hc, hf⟩]
  rfl

theorem update_rate_of_success (ind : Indicators) (m : EventRecord)
    (hs : m.success = true) :
    (updateProductivityIndicators ind m).success_rate = ind.success_rate := by
  unfold updateProductivityIndicators applyRate
  rw [if_neg (by simp [hs])]
  rfl

theorem primaryEvent_event_type (env : PipelineEnv) (td : ToolData) :
    (primaryEvent env td).event_type = "tool_execution" := by
  cases h : td.error <;>
    simp [primaryEvent, createPostToolUseContext, basicMetricsData, h]

theorem primaryEvent_tool_name (env : PipelineEnv) (td : ToolData) :
    (primaryEvent env td).tool_name = some (jsStrOr td.toolName "unknown") := by
  cases h : td.error <;>
    simp [primaryEvent, createPostToolUseContext, basicMetricsData, h]

theorem primaryEvent_user (env : PipelineEnv) (td : ToolData) :
    (primaryEvent env td).user = some (jsStrOr env.envUser "unknown") := by
  cases h : td.error <;>
    simp [primaryEvent, createPostToolUseContext, basicMetricsData, h]

theorem primaryEvent_session_id (env : PipelineEnv) (td : ToolData) :
    (primaryEvent env td).session_id
      = some (getCurrentSessionId env.envSessionId env.sessionFile) := by
  cases h : td.error <;>
    simp [primaryEvent, createPostToolUseContext, basicMetricsData, h]

theorem primaryEvent_success (env : PipelineEnv) (td : ToolData) :
    (primaryEvent env td).success = td.error.isNone := by
  cases h : td.error <;>
    simp [primaryEvent, createPostToolUseContext, basicMetricsData, h]

theorem primaryEvent_metrics (env : PipelineEnv) (td : ToolData) :
    (primaryEvent env td).metrics
      = extractToolSpecificMetrics env.fsSize
          (createPostToolUseContext env.envInfo env.nowContext td) := by
  cases h : td.error <;>
    simp [primaryEvent, createPostToolUseContext, basicMetricsData, h]

theorem mainHook_events (env : PipelineEnv) (td : ToolData) :
    (mainHook env td).events
      = if jsStrOr td.toolName "unknown" = "Task"
        then [agentEvent env td, primaryEvent env td]
        else [primaryEvent env td] := by
  unfold mainHook
  by_cases h : (createPostToolUseContext env.envInfo env.nowContext td).tool_name = "Task" <;>
    simp_all [createPostToolUseContext]

theorem mainHook_report (env : PipelineEnv) (td : ToolData) :
    (mainHook env td).report
      = { success := true
          toolName := jsStrOr td.toolName "unknown"
          successful := td.error.isNone
          metricsLogged := (logMetrics env.primarySink (primaryEvent env td)).success
          apiMethod := (logMetrics env.primarySink (primaryEvent env td)).method
          apiMessage := (logMetrics env.primarySink (primaryEvent env td)).message } := rfl

/-! ### Claim theorems -/

/-- C1: for every event applied by `updateProductivityIndicators` (on a
document with a non-negative command counter): a failure event sets
`success_rate` to `max 0 (prior - 1/n)` where `n` is the post-increment
`commands_executed`, and a success event leaves `success_rate` unchanged;
in particular, two consecutive failed events starting from the fresh
document (`commands_executed = 0`, `success_rate = 100`) leave
`success_rate = 100 - 1/1 - 1/2 = 98.5 = 197/2`. -/
theorem c1_success_rate_update :
    (∀ (ind : Indicators) (m : EventRecord), 0 ≤ ind.commands_executed →
      (m.success = false →
        (updateProductivityIndicators ind m).success_rate
          = max 0 (ind.success_rate
              - 1 / ((updateProductivityIndicators ind m).commands_executed : ℚ))) ∧
      (m.success = true →
        (updateProductivityIndicators ind m).success_rate = ind.success_rate)) ∧
    (∀ (t : String) (m₁ m₂ : EventRecord), m₁.success = false → m₂.success = false →
      (updateProductivityIndicators
          (updateProductivityIndicators (initialIndicators t) m₁) m₂).success_rate
        = 197 / 2) := by
  constructor
  · intro ind m h
    constructor
    · intro hf
      rw [updateProductivityIndicators_commands]
      exact update_rate_of_fail ind m h hf
    · intro hs
      exact update_rate_of_success ind m hs
  · intro t m₁ m₂ hf₁ hf₂
    have h0 : (0 : Int) ≤ (initialIndicators t).commands_executed := le_refl 0
    have h1 := update_rate_of_fail (initialIndicators t) m₁ h0 hf₁
    have hce1 : (updateProductivityIndicators (initialIndicators t) m₁).commands_executed = 1 := by
      rw [updateProductivityIndicators_commands]; rfl
    have h1' : (updateProductivityIndicators (initialIndicators t) m₁).success_rate = 99 := by
      rw [h1]
      have hsr : (initialIndicators t).success_rate = 100 := rfl
      have hce : (initialIndicators t).commands_executed = 0 := rfl
      rw [hsr, hce]
      norm_num
    have h2 := update_rate_of_fail (updateProductivityIndicators (initialIndicators t) m₁) m₂
      (by rw [hce1]; norm_num) hf₂
    rw [h2, h1', hce1]
    norm_num

/-- Witness for C1 at a concrete failed event on the fresh document. -/
theorem c1_success_rate_update_witness :
    (updateProductivityIndicators (initialIndicators "2025-01-01T00:00:00Z")
        { event_type := "tool_execution", timestamp := "2025-01-01T00:00:00Z",
          success := false, execution_time_ms := 0 }).success_rate
      = max 0 ((initialIndicators "2025-01-01T00:00:00Z").success_rate
          - 1 / ((updateProductivityIndicators (initialIndicators "2025-01-01T00:00:00Z")
              { event_type := "tool_execution", timestamp := "2025-01-01T00:00:00Z",
                success := false, execution_time_ms := 0 }).commands_executed : ℚ)) :=
  ((c1_success_rate_update.1 (initialIndicators "2025-01-01T00:00:00Z")
      { event_type := "tool_execution", timestamp := "2025-01-01T00:00:00Z",
        success := false, execution_time_ms := 0 } (le_refl 0)).1 rfl)

/-- C2: the metrics sink never propagates an exception (its embedding is
a total function into `Outcome`); for every event record, whichever way
the remote path raises (the submission itself, or already the client
construction), if the local fallback writes succeed the outcome is
`success = true` with `method = "local_fallback"`, and if the local
fallback also raises the outcome is `success = false` with the
local-fallback error captured. -/
theorem c2_sink_fallback (init : Except String Unit) (e fe : String) (data : EventRecord) :
    ((logMetrics { clientInit := init, remote := Except.error e, localWrite := Except.ok () } data).success = true ∧
     (logMetrics { clientInit := init, remote := Except.error e, localWrite := Except.ok () } data).method = "local_fallback") ∧
    ((logMetrics { clientInit := init, remote := Except.error e, localWrite := Except.error fe } data).success = false ∧
     (logMetrics { clientInit := init, remote := Except.error e, localWrite := Except.error fe } data).error = some fe) := by
  cases init <;> simp [logMetrics, sendToBackendWithFallback]

/-- C3 counterexample: with the environment variable unset and the
session-id file present and readable with whitespace-only content, the
resolver returns the fallback constant, not the (empty) trimmed file
content the claim promises. -/
theorem c3_counterexample :
    getCurrentSessionId none (some (Except.ok "   ")) = "default-session" ∧
    jsTrim "   " = "" ∧
    getCurrentSessionId none (some (Except.ok "   ")) ≠ jsTrim "   " := by
  decide

/-- C3 (amended): resolution never raises (its embedding is a total
function); a set, non-empty environment variable is always returned;
otherwise a readable file whose content trims to a non-empty string
yields that trimmed content; in every other case — variable unset or
empty, file absent, file read raising (the error is swallowed), or file
content trimming to the empty string — the literal `"default-session"`
is returned. -/
theorem c3_session_resolution (envVar : Option String)
    (file : Option (Except Unit String)) :
    (∀ s, envVar = some s → s ≠ "" → getCurrentSessionId envVar file = s) ∧
    ((envVar = none ∨ envVar = some "") →
      ∀ c, file = some (Except.ok c) → jsTrim c ≠ "" →
        getCurrentSessionId envVar file = jsTrim c) ∧
    ((envVar = none ∨ envVar = some "") →
      (file = none ∨ file = some (Except.error ()) ∨
        (∃ c, file = some (Except.ok c) ∧ jsTrim c = "")) →
      getCurrentSessionId envVar file = "default-session") := by
  refine ⟨?_, ?_, ?_⟩
  · rintro s rfl hs
    simp [getCurrentSessionId, hs]
  · rintro henv c rfl hc
    rcases henv with rfl | rfl <;> simp [getCurrentSessionId, hc]
  · rintro henv hfile
    rcases henv with rfl | rfl <;>
      rcases hfile with rfl | rfl | ⟨c, rfl, hc⟩ <;>
        simp_all [getCurrentSessionId]

/-- Witness for C3 at concrete inputs: the environment variable wins over
a readable file, and a trimmed non-empty file content is returned when
the variable is unset. -/
theorem c3_session_resolution_witness :
    getCurrentSessionId (some "sess-42") (some (Except.ok " file-id ")) = "sess-42" ∧
    getCurrentSessionId none (some (Except.ok " file-id ")) = jsTrim " file-id " :=
  ⟨(c3_session_resolution (some "sess-42") (some (Except.ok " file-id "))).1
      "sess-42" rfl (by decide),
   (c3_session_resolution none (some (Except.ok " file-id "))).2.1
      (Or.inl rfl) " file-id " rfl (by decide)⟩

/-- C4: for every orchestrated call exactly one primary `tool_execution`
record is produced, and exactly when the tool name is the delegation tool
`Task` a secondary `agent_invocation` record is additionally constructed
and passed to the sink before the primary record. -/
theorem c4_event_production (env : PipelineEnv) (td : ToolData) :
    ((mainHook env td).events.map EventRecord.event_type
      = if jsStrOr td.toolName "unknown" = "Task"
        then ["agent_invocation", "tool_execution"]
        else ["tool_execution"]) ∧
    ((mainHook env td).events.filter
      (fun e => e.event_type == "tool_execution")).length = 1 := by
  rw [mainHook_events]
  by_cases h : jsStrOr td.toolName "unknown" = "Task" <;>
    simp [h, primaryEvent_event_type, agentEvent, List.filter]

/-- C5 counterexample: on a `Task` invocation, the secondary
`agent_invocation` record passed to the sink does not carry the tool
name, user and session identifier fields of the data model. -/
theorem c5_counterexample :
    ((mainHook {} { toolName := some "Task" }).events.all hasDataModelFields) = false := by
  rw [mainHook_events]
  simp [jsStrOr, hasDataModelFields, agentEvent]

/-- C5 (amended): the primary `tool_execution` record always carries all
the data-model fields — event type, timestamp, tool name, success flag,
execution time, user identifier defaulting to `"unknown"`, session
identifier (timestamp, success and execution time are mandatory fields
of the embedding); the secondary `agent_invocation` record carries event
type, timestamp, agent name, task description, success flag and
execution time, but no tool name, user or session identifier. -/
theorem c5_event_fields (env : PipelineEnv) (td : ToolData) :
    ((primaryEvent env td).event_type = "tool_execution" ∧
     (primaryEvent env td).tool_name = some (jsStrOr td.toolName "unknown") ∧
     (primaryEvent env td).user = some (jsStrOr env.envUser "unknown") ∧
     (primaryEvent env td).session_id
        = some (getCurrentSessionId env.envSessionId env.sessionFile) ∧
     (primaryEvent env td).success = td.error.isNone) ∧
    (jsStrOr td.toolName "unknown" = "Task" →
      (mainHook env td).events = [agentEvent env td, primaryEvent env td] ∧
      (agentEvent env td).event_type = "agent_invocation" ∧
      (agentEvent env td).agent_name.isSome = true ∧
      (agentEvent env td).task_description.isSome = true ∧
      (agentEvent env td).tool_name = none ∧
      (agentEvent env td).user = none ∧
      (agentEvent env td).session_id = none) := by
  refine ⟨⟨primaryEvent_event_type env td, primaryEvent_tool_name env td,
    primaryEvent_user env td, primaryEvent_session_id env td,
    primaryEvent_success env td⟩, ?_⟩
  intro h
  refine ⟨by rw [mainHook_events, if_pos h], ?_, ?_, ?_, rfl, rfl, rfl⟩
  · rfl
  · simp [agentEvent, extractToolSpecificMetrics, createPostToolUseContext, h]
  · simp [agentEvent, extractToolSpecificMetrics, createPostToolUseContext, h]

/-- Witness for C5 at a concrete `Task` invocation. -/
theorem c5_event_fields_witness :
    (mainHook {} { toolName := some "Task" }).events
        = [agentEvent {} { toolName := some "Task" },
           primaryEvent {} { toolName := some "Task" }] ∧
    (agentEvent {} { toolName := some "Task" }).tool_name = none :=
  ⟨((c5_event_fields {} { toolName := some "Task" }).2 (by decide)).1,
   ((c5_event_fields {} { toolName := some "Task" }).2 (by decide)).2.2.2.2.1⟩

/-- C9: the report's overall success flag is `true` for every invocation
on which no exception escapes the pipeline body (the embedded body is
total, so that is every invocation), regardless of the sink outcome and
of the invocation's own error: `metricsLogged` merely mirrors the sink's
result and `successful` the invocation's; concretely, with both sink
paths failing and a failed invocation the report still has
`success = true` while carrying `metricsLogged = false` and
`successful = false`. -/
theorem c9_report_success (env : PipelineEnv) (td : ToolData) :
    (mainHook env td).report.success = true ∧
    (mainHook env td).report.metricsLogged
      = (logMetrics env.primarySink (primaryEvent env td)).success ∧
    (mainHook env td).report.successful = td.error.isNone ∧
    ((mainHook { primarySink := { remote := Except.error "down", localWrite := Except.error "disk full" } } { error := some "boom" }).report.success = true ∧
     (mainHook { primarySink := { remote := Except.error "down", localWrite := Except.error "disk full" } } { error := some "boom" }).report.metricsLogged = false ∧
     (mainHook { primarySink := { remote := Except.error "down", localWrite := Except.error "disk full" } } { error := some "boom" }).report.successful = false) := by
  refine ⟨rfl, rfl, rfl, rfl, ?_, rfl⟩
  rw [mainHook_report]
  simp [logMetrics, sendToBackendWithFallback]

theorem ite_len_eq_countLines (s : String) :
    (if s ≠ "" then ((jsSplit s '\n').length : Int) else 0) = (countLines s : Int) := by
  by_cases h : s = "" <;> simp [countLines, h]

/-- C6: the line count used by the Edit and Write extractors is `0` on
the empty string and otherwise the number of newline-separated segments
(one more than the number of newline characters); the Edit extractor sets
`lines_removed`/`lines_added` to the line counts of the old/new strings
and `net_lines` to their difference; concretely, `old_string = "a\nb"`
and `new_string = "x"` give `lines_removed = 2`, `lines_added = 1`,
`net_lines = -1`. -/
theorem c6_line_counts :
    (∀ s : String, (s = "" → countLines s = 0) ∧
      (s ≠ "" → countLines s = (jsSplit s '\n').length ∧
                countLines s = s.data.count '\n' + 1)) ∧
    (∀ (fs : String → Option Int) (ctx : HookContext), ctx.tool_name = "Edit" →
      (extractToolSpecificMetrics fs ctx).lines_removed
          = some ((countLines (jsStrOr ctx.tool_input.old_string "") : Int)) ∧
      (extractToolSpecificMetrics fs ctx).lines_added
          = some ((countLines (jsStrOr ctx.tool_input.new_string "") : Int)) ∧
      (extractToolSpecificMetrics fs ctx).net_lines
          = some ((countLines (jsStrOr ctx.tool_input.new_string "") : Int)
              - (countLines (jsStrOr ctx.tool_input.old_string "") : Int))) ∧
    ((extractToolSpecificMetrics (fun _ => none)
        { tool_name := "Edit",
          tool_input := { old_string := some "a\nb", new_string := some "x" } }).lines_removed
        = some 2 ∧
     (extractToolSpecificMetrics (fun _ => none)
        { tool_name := "Edit",
          tool_input := { old_string := some "a\nb", new_string := some "x" } }).lines_added
        = some 1 ∧
     (extractToolSpecificMetrics (fun _ => none)
        { tool_name := "Edit",
          tool_input := { old_string := some "a\nb", new_string := some "x" } }).net_lines
        = some (-1)) := by
  refine ⟨?_, ?_, by decide⟩
  · intro s
    refine ⟨fun h => by simp [countLines, h],
      fun h => ⟨by simp [countLines, h], by simp [countLines, h, jsSplit_length]⟩⟩
  · intro fs ctx h
    simp only [extractToolSpecificMetrics, h]
    rw [ite_len_eq_countLines, ite_len_eq_countLines]
    exact ⟨rfl, rfl, rfl⟩

/-- Witness for C6 on a concrete non-empty string. -/
theorem c6_line_counts_witness :
    countLines "a\nb" = ("a\nb" : String).data.count '\n' + 1 :=
  ((c6_line_counts.1 "a\nb").2 (by decide)).2

/-- C7 counterexample: for the Bash command `"ls\t-la"` (tokens separated
by a tab) the extracted `command_type` is the whole string, not its first
whitespace-delimited token `"ls"`: the code splits on the space character
only. -/
theorem c7_counterexample :
    (extractToolSpecificMetrics (fun _ => none)
        { tool_name := "Bash", tool_input := { command := some "ls\t-la" } }).command_type
        = some "ls\t-la" ∧
    firstWhitespaceToken "ls\t-la" = "ls" ∧
    (extractToolSpecificMetrics (fun _ => none)
        { tool_name := "Bash", tool_input := { command := some "ls\t-la" } }).command_type
        ≠ some (firstWhitespaceToken "ls\t-la") := by
  decide

/-- C7 (amended): for every Bash invocation the extracted `command_type`
is the prefix of the command string up to its first SPACE character (the
code splits on the space character only, not on general whitespace), or
the literal `"unknown"` when the command string is empty. -/
theorem c7_command_type (fs : String → Option Int) (ctx : HookContext)
    (h : ctx.tool_name = "Bash") :
    (extractToolSpecificMetrics fs ctx).command_type
      = some (if jsStrOr ctx.tool_input.command "" = "" then "unknown"
              else firstSpaceSegment (jsStrOr ctx.tool_input.command "")) := by
  simp only [extractToolSpecificMetrics, h]
  by_cases hc : jsStrOr ctx.tool_input.command "" = ""
  · simp [hc]
  · rw [if_pos hc, if_neg hc, jsSplit_headD]
    rfl

/-- Witness for C7 at a concrete Bash command. -/
theorem c7_command_type_witness :
    (extractToolSpecificMetrics (fun _ => none)
        { tool_name := "Bash", tool_input := { command := some "git status" } }).command_type
      = some "git" := by
  rw [c7_command_type (fun _ => none) _ rfl]
  decide

theorem updateProductivityIndicators_files (ind : Indicators) (m : EventRecord) :
    (updateProductivityIndicators ind m).files_modified
      = ind.files_modified +
        (if ((m.tool_name.getD "undefined") = "Edit" ∨ (m.tool_name.getD "undefined") = "Write")
            ∧ m.metrics.file_path.isSome then 1 else 0) := by
  unfold updateProductivityIndicators applyRate
  split <;> rfl

theorem updateProductivityIndicators_lines (ind : Indicators) (m : EventRecord) :
    (updateProductivityIndicators ind m).lines_changed
      = ind.lines_changed +
        (if m.metrics.net_lines.isSome then ((m.metrics.net_lines.getD 0).natAbs : Int)
         else if m.metrics.lines_written.isSome then m.metrics.lines_written.getD 0
         else 0) := by
  unfold updateProductivityIndicators applyRate
  split <;> rfl

theorem updateProductivityIndicators_tools (ind : Indicators) (m : EventRecord) :
    (updateProductivityIndicators ind m).tools_used
      = bumpCount ind.tools_used (m.tool_name.getD "undefined") := by
  unfold updateProductivityIndicators applyRate
  split <;> rfl

theorem updateProductivityIndicators_agents (ind : Indicators) (m : EventRecord) :
    (updateProductivityIndicators ind m).agents_invoked
      = (if jsTruthyStr m.metrics.subagent_type then
          bumpCount ind.agents_invoked (m.metrics.subagent_type.getD "")
         else ind.agents_invoked) := by
  unfold updateProductivityIndicators applyRate
  split <;> rfl

theorem updateProductivityIndicators_rate_nonneg (ind : Indicators) (m : EventRecord)
    (h : 0 ≤ ind.success_rate) :
    0 ≤ (updateProductivityIndicators ind m).success_rate := by
  unfold updateProductivityIndicators applyRate
  split
  · exact le_max_left 0 _
  · exact h

theorem updateProductivityIndicators_rate_le (ind : Indicators) (m : EventRecord)
    (h0 : 0 ≤ ind.commands_executed) (hsr : 0 ≤ ind.success_rate) :
    (updateProductivityIndicators ind m).success_rate ≤ ind.success_rate := by
  cases hs : m.success
  · rw [update_rate_of_fail ind m h0 hs]
    refine max_le hsr (sub_le_self _ (one_div_nonneg.mpr ?_))
    exact_mod_cast (by omega : (0 : Int) ≤ ind.commands_executed + 1)
  · rw [update_rate_of_success ind m hs]

theorem bumpCount_nonneg {m : List (String × Int)} (h : NonnegCounts m) (k : String) :
    NonnegCounts (bumpCount m k) := by
  unfold bumpCount
  split
  · intro p hp
    obtain ⟨q, hq, rfl⟩ := List.mem_map.mp hp
    have hq2 := h q hq
    by_cases hqk : q.1 = k
    · simp [hqk]
      omega
    · simp [hqk]
      exact hq2
  · intro p hp
    rcases List.mem_append.mp hp with h1 | h1
    · exact h p h1
    · simp only [List.mem_singleton] at h1
      subst h1
      norm_num

theorem extract_lines_written_nonneg (fs : String → Option Int) (ctx : HookContext) :
    0 ≤ (extractToolSpecificMetrics fs ctx).lines_written.getD 0 := by
  unfold extractToolSpecificMetrics
  split <;> simp
  split <;> simp

/-- C8: the indicator-document invariant is preserved by every update
with a pipeline-produced event: `commands_executed` grows by exactly 1,
`success_rate` never increases, and all counters (commands, files, lines,
per-tool and per-agent counts, success rate) stay non-negative. -/
theorem c8_indicators_invariant (env : PipelineEnv) (td : ToolData) (ind : Indicators)
    (h : IndInvariant ind) :
    (updateProductivityIndicators ind (primaryEvent env td)).commands_executed
        = ind.commands_executed + 1 ∧
    (updateProductivityIndicators ind (primaryEvent env td)).success_rate
        ≤ ind.success_rate ∧
    IndInvariant (updateProductivityIndicators ind (primaryEvent env td)) := by
  obtain ⟨hce, hfm, hlc, hsr, htools, hagents⟩ := h
  refine ⟨updateProductivityIndicators_commands ind _,
    updateProductivityIndicators_rate_le _ _ hce hsr,
    ?_, ?_, ?_, updateProductivityIndicators_rate_nonneg _ _ hsr, ?_, ?_⟩
  · rw [updateProductivityIndicators_commands]
    omega
  · rw [updateProductivityIndicators_files]
    split <;> omega
  · rw [updateProductivityIndicators_lines, primaryEvent_metrics]
    have hw := extract_lines_written_nonneg env.fsSize
      (createPostToolUseContext env.envInfo env.nowContext td)
    split
    · omega
    · split <;> omega
  · rw [updateProductivityIndicators_tools]
    exact bumpCount_nonneg htools _
  · rw [updateProductivityIndicators_agents]
    split
    · exact bumpCount_nonneg hagents _
    · exact hagents

/-- Witness for C8: the invariant holds of the fresh document and is
preserved by a concrete update. -/
theorem c8_indicators_invariant_witness :
    (updateProductivityIndicators (initialIndicators "t") (primaryEvent {} {})).commands_executed
        = (initialIndicators "t").commands_executed + 1 ∧
    (updateProductivityIndicators (initialIndicators "t") (primaryEvent {} {})).success_rate
        ≤ (initialIndicators "t").success_rate ∧
    IndInvariant (updateProductivityIndicators (initialIndicators "t") (primaryEvent {} {})) :=
  c8_indicators_invariant {} {} (initialIndicators "t")
    ⟨le_refl 0, le_refl 0, le_refl 0, by norm_num [initialIndicators],
     fun p hp => absurd hp (List.not_mem_nil p),
     fun p hp => absurd hp (List.not_mem_nil p)⟩

/-- C10: the Edit and Write extractors always emit a `file_path` field
(defaulting to the empty string when the tool input has none), so the
aggregator increments `files_modified` on every Edit/Write event produced
by the pipeline, including invocations with no file path supplied. -/
theorem c10_files_modified :
    (∀ (fs : String → Option Int) (ctx : HookContext),
      ctx.tool_name = "Edit" ∨ ctx.tool_name = "Write" →
      (extractToolSpecificMetrics fs ctx).file_path
        = some (jsStrOr ctx.tool_input.file_path "")) ∧
    (∀ (env : PipelineEnv) (td : ToolData) (ind : Indicators),
      jsStrOr td.toolName "unknown" = "Edit" ∨ jsStrOr td.toolName "unknown" = "Write" →
      (updateProductivityIndicators ind (primaryEvent env td)).files_modified
        = ind.files_modified + 1) := by
  have hA : ∀ (fs : String → Option Int) (ctx : HookContext),
      ctx.tool_name = "Edit" ∨ ctx.tool_name = "Write" →
      (extractToolSpecificMetrics fs ctx).file_path
        = some (jsStrOr ctx.tool_input.file_path "") := by
    rintro fs ctx (h | h) <;> simp [extractToolSpecificMetrics, h]
  refine ⟨hA, ?_⟩
  intro env td ind h
  rw [updateProductivityIndicators_files]
  have htn : (primaryEvent env td).tool_name.getD "undefined"
      = jsStrOr td.toolName "unknown" := by
    rw [primaryEvent_tool_name]
    rfl
  have hfp : (primaryEvent env td).metrics.file_path.isSome = true := by
    rw [primaryEvent_metrics, hA env.fsSize _ h]
    rfl
  rw [htn, if_pos ⟨h, hfp⟩]

/-- Witness for C10 at an Edit invocation with no file path supplied. -/
theorem c10_files_modified_witness :
    (extractToolSpecificMetrics (fun _ => none) { tool_name := "Edit" }).file_path
        = some (jsStrOr ({} : ToolInput).file_path "") ∧
    (updateProductivityIndicators (initialIndicators "t")
        (primaryEvent {} { toolName := some "Edit" })).files_modified
        = (initialIndicators "t").files_modified + 1 :=
  ⟨c10_files_modified.1 (fun _ => none) { tool_name := "Edit" } (Or.inl rfl),
   c10_files_modified.2 {} { toolName := some "Edit" } (initialIndicators "t")
      (Or.inl (by decide))⟩

end ToolMetrics
